import Mathlib

/-!
Verification development for the slidemaster repository: a shallow embedding
of the slide theme-resolution, rendering and export pipeline
(src/types.ts, src/components/SlideRenderer.tsx, src/components/DeckViewer.tsx),
together with theorems settling the behavioural claims about it.

Modelling conventions:
* TypeScript optional fields become Option; JavaScript string truthiness
  (the empty string is falsy) is modelled explicitly by truthyStr.
* The TS field names masters.section and masters.default are Lean keywords,
  so they are embedded as sectionMaster and defaultMaster.
* The renderer reads the wall clock (new Date()); the embedding threads an
  explicit JsDate argument instead.
-/

namespace SlideMaster

/-- JavaScript string truthiness for an optional string field:
undefined and the empty string are falsy. -/
def truthyStr : Option String → Bool
  | Option.none => false
  | Option.some s => s ≠ ""

/-- JavaScript a || b on optional strings: a when truthy, otherwise b. -/
def jsOrS (a b : Option String) : Option String :=
  if truthyStr a then a else b

/-- String.prototype.toUpperCase restricted to basic latin characters
(the only ones occurring in the hex colors it is applied to), written as a
map over the character list so that it evaluates inside the kernel. -/
def toUpperAscii (s : String) : String :=
  String.mk (s.data.map Char.toUpper)

/-- types.ts LogoSpecs.placement. -/
inductive LogoPlacement
  | topLeft
  | topRight
  | bottomLeft
  | bottomRight
  | topCenter
  | none
deriving DecidableEq, Repr

/-- types.ts LogoSpecs.style. -/
inductive LogoStyle
  | dark
  | light
  | color
deriving DecidableEq, Repr

/-- types.ts LogoSpecs.images: optional light and dark logo assets. -/
structure LogoImages where
  light : Option String
  dark : Option String
deriving DecidableEq, Repr

/-- types.ts LogoSpecs. -/
structure LogoSpecs where
  placement : LogoPlacement
  style : LogoStyle
  images : Option LogoImages
  maxHeight : Option Nat
deriving DecidableEq, Repr

/-- types.ts MasterSlideStyle. -/
structure MasterSlideStyle where
  background : String
  backgroundImage : Option String
  backgroundVideo : Option String
  textColor : String
  accentColor : String
  ornament : Option String
deriving DecidableEq, Repr

/-- types.ts PresentationSettings.dateFormat. -/
inductive DateFormat
  | enGB
  | enUS
  | deDE
deriving DecidableEq, Repr

/-- types.ts PresentationSettings.language. -/
inductive UiLanguage
  | en
  | de
deriving DecidableEq, Repr

/-- types.ts PresentationSettings.endSlide. -/
structure EndSlideSettings where
  title : Option String
  subtitle : Option String
deriving DecidableEq, Repr

/-- types.ts PresentationSettings. -/
structure PresentationSettings where
  showPageNumbers : Option Bool
  dateFormat : Option DateFormat
  endSlide : Option EndSlideSettings
  language : Option UiLanguage
deriving DecidableEq, Repr

/-- types.ts DesignSystem.colors. -/
structure ColorPalette where
  background : String
  text : String
  primary : String
  secondary : String
  accent : String
deriving DecidableEq, Repr

/-- types.ts DesignSystem.fonts. -/
structure FontPair where
  heading : String
  body : String
deriving DecidableEq, Repr

/-- types.ts DesignSystem.masters. The TS fields are title, section and
default; section, although declared required by the interface, can be
undefined at runtime in old data (the renderer comments say so and guard
with masters.section || masters.title), so it is embedded as an Option. -/
structure Masters where
  title : MasterSlideStyle
  sectionMaster : Option MasterSlideStyle
  defaultMaster : MasterSlideStyle
deriving DecidableEq, Repr

/-- types.ts DesignSystem. -/
structure DesignSystem where
  name : String
  colors : ColorPalette
  fonts : FontPair
  logo : LogoSpecs
  masters : Masters
  vibe : String
  settings : Option PresentationSettings
deriving DecidableEq, Repr

/-- types.ts Slide.type. The TS tag section is the Lean keyword, embedded
as sectionType. -/
inductive SlideType
  | title
  | sectionType
  | content
  | splitLeft
  | splitRight
  | quote
  | bigNumber
deriving DecidableEq, Repr

/-- types.ts Slide. -/
structure Slide where
  id : String
  type : SlideType
  title : String
  subtitle : Option String
  content : Option (List String)
  imageKeyword : Option String
  highlight : Option String
deriving DecidableEq, Repr

/-- An explicit calendar date standing in for the JS Date the renderer
creates with new Date(); month is 1 to 12. -/
structure JsDate where
  day : Nat
  month : Nat
  year : Nat
deriving DecidableEq, Repr

/-- The en-GB long month names produced by
Date.prototype.toLocaleDateString with month long. -/
def monthNameEnGB : Nat → String
  | 1 => "January"
  | 2 => "February"
  | 3 => "March"
  | 4 => "April"
  | 5 => "May"
  | 6 => "June"
  | 7 => "July"
  | 8 => "August"
  | 9 => "September"
  | 10 => "October"
  | 11 => "November"
  | 12 => "December"
  | _ => ""

/-- toLocaleDateString with the en-GB locale and day numeric, month long,
year numeric, as hard-coded in SlideRenderer.tsx (dateStr). -/
def formatDateEnGBLong (d : JsDate) : String :=
  toString d.day ++ " " ++ monthNameEnGB d.month ++ " " ++ toString d.year

/-- SlideRenderer.tsx: isEndSlide = index === total - 1 && total > 1.
With Nat subtraction, total = 0 gives total - 1 = 0, but the total > 1
conjunct is then false, matching the JS result. -/
def isEndSlide (index total : Nat) : Bool :=
  index == total - 1 && total > 1

/-- SlideRenderer.tsx masterStyle selection:
title or end slides use masters.title; section slides use
masters.section || masters.title; everything else uses masters.default. -/
def masterStyleOf (slide : Slide) (index total : Nat) (masters : Masters) :
    MasterSlideStyle :=
  if slide.type == SlideType.title || isEndSlide index total then masters.title
  else if slide.type == SlideType.sectionType then
    masters.sectionMaster.getD masters.title
  else masters.defaultMaster

/-- SlideRenderer.tsx: hasBackgroundImage =
!!masterStyle.backgroundImage || !!masterStyle.backgroundVideo. -/
def hasBackgroundImage (m : MasterSlideStyle) : Bool :=
  truthyStr m.backgroundImage || truthyStr m.backgroundVideo

/-- SlideRenderer.tsx: contentColor = hasBackgroundImage ? white :
(masterStyle.textColor || black). -/
def contentColor (m : MasterSlideStyle) : String :=
  if hasBackgroundImage m then "#FFFFFF"
  else if m.textColor ≠ "" then m.textColor else "#000000"

/-- SlideRenderer.tsx: textShadow = hasBackgroundImage ? drop shadow : none. -/
def textShadow (m : MasterSlideStyle) : String :=
  if hasBackgroundImage m then "0 2px 4px rgba(0,0,0,0.6)" else "none"

/-- The rendered logo img element: its src and its CSS filter value.
The positional CSS classes are display geometry and are not modelled. -/
structure LogoRender where
  src : String
  filter : String
deriving DecidableEq, Repr

/-- SlideRenderer.tsx Logo component: asset choice and inversion filter.
Returns none when nothing is rendered (placement none, or no usable asset). -/
def renderLogo (logo : LogoSpecs) (contentColor : String) : Option LogoRender :=
  if logo.placement == LogoPlacement.none then Option.none
  else
    let useLightLogo := toUpperAscii contentColor == "#FFFFFF"
    let lightAsset := logo.images.bind (fun im => im.light)
    let darkAsset := logo.images.bind (fun im => im.dark)
    let specificLogo := if useLightLogo then lightAsset else darkAsset
    let fallbackLogo := if useLightLogo then darkAsset else lightAsset
    let logoSrc := jsOrS specificLogo fallbackLogo
    if truthyStr logoSrc then
      let filter :=
        if useLightLogo && !truthyStr specificLogo && truthyStr fallbackLogo
        then "brightness(0) invert(1)"
        else "none"
      Option.some { src := logoSrc.getD "", filter := filter }
    else Option.none

/-- SlideRenderer.tsx getImageUrl: a placeholder image keyed by slide id. -/
def getImageUrl (slide : Slide) : String :=
  "https://picsum.photos/seed/" ++ slide.id ++ "/1600/900"

/-- The content block produced by SlideRenderer.tsx renderContent, reduced
to the text/asset content of each branch (geometry and CSS sizing are
display attributes and are not modelled). -/
inductive ContentLayout
  | endSlide (heading teamLine : String)
  | titleLayout (heading : String) (subtitle : Option String)
      (dateCaption : String)
  | sectionLayout (accentBarColor heading : String) (subtitle : Option String)
  | quoteLayout (focal : String) (attribution : Option String)
  | bigNumberLayout (heading : String) (bullets : List String) (focal : String)
  | contentLayout (heading : String) (bullets : List String)
      (imagePanel : Option String)
deriving DecidableEq, Repr

/-- SlideRenderer.tsx renderContent: the end-slide override comes before the
type switch; splitLeft and splitRight fall through to the default (content)
branch in this variant of the component. -/
def renderContent (slide : Slide) (masterStyle : MasterSlideStyle)
    (isEnd : Bool) (now : JsDate) : ContentLayout :=
  if isEnd then
    ContentLayout.endSlide "Vielen Dank!" "Ihr hurra.com™ Team"
  else
    match slide.type with
    | SlideType.title =>
        ContentLayout.titleLayout slide.title
          (if truthyStr slide.subtitle then slide.subtitle else Option.none)
          (formatDateEnGBLong now)
    | SlideType.sectionType =>
        ContentLayout.sectionLayout masterStyle.accentColor slide.title
          (if truthyStr slide.subtitle then slide.subtitle else Option.none)
    | SlideType.quote =>
        ContentLayout.quoteLayout
          ((jsOrS slide.highlight (Option.some slide.title)).getD "")
          (if truthyStr slide.subtitle then slide.subtitle else Option.none)
    | SlideType.bigNumber =>
        ContentLayout.bigNumberLayout slide.title (slide.content.getD [])
          ((jsOrS slide.highlight (Option.some "100%")).getD "")
    | _ =>
        ContentLayout.contentLayout slide.title (slide.content.getD [])
          (if truthyStr slide.imageKeyword then Option.some (getImageUrl slide)
           else Option.none)

/-- One slide as produced by the SlideRenderer component: the selected
master, the resolved contrast values, the logo, the content block and the
optional page-number caption. -/
structure RenderedSlide where
  masterStyle : MasterSlideStyle
  contentColor : String
  textShadow : String
  logo : Option LogoRender
  layout : ContentLayout
  pageNumber : Option String
deriving DecidableEq, Repr

/-- The SlideRenderer component (first variant in SlideRenderer.tsx):
theme resolution followed by content layout.  The page-number caption is
rendered exactly when the slide is not a title, not a section and not the
end slide.  The component never reads system.settings. -/
def renderSlide (slide : Slide) (system : DesignSystem) (index total : Nat)
    (now : JsDate) : RenderedSlide :=
  let isTitleSlide := slide.type == SlideType.title
  let isEnd := isEndSlide index total
  let isSectionSlide := slide.type == SlideType.sectionType
  let masterStyle := masterStyleOf slide index total system.masters
  let cColor := contentColor masterStyle
  let tShadow := textShadow masterStyle
  { masterStyle := masterStyle
    contentColor := cColor
    textShadow := tShadow
    logo := renderLogo system.logo cColor
    layout := renderContent slide masterStyle isEnd now
    pageNumber :=
      if !isTitleSlide && !isSectionSlide && !isEnd then
        Option.some (toString (index + 1) ++ " / " ++ toString total)
      else Option.none }

/-- The jsPDF document state used by DeckViewer.tsx handleExportPDF.
Pages are kept most-recent-first in pagesRev (the head is the page that
addImage draws on); addPageCalls counts the pdf.addPage calls, i.e. the
page breaks inserted. A fresh jsPDF document starts with one empty page. -/
structure PdfDoc where
  pagesRev : List (List String)
  addPageCalls : Nat
deriving DecidableEq, Repr

/-- The pages of the document in order. -/
def PdfDoc.pages (d : PdfDoc) : List (List String) := d.pagesRev.reverse

/-- new jsPDF(...): a document with a single empty page. -/
def newJsPDF : PdfDoc := { pagesRev := [[]], addPageCalls := 0 }

/-- pdf.addPage(...): appends a fresh page, which becomes current. -/
def addPage (d : PdfDoc) : PdfDoc :=
  { pagesRev := [] :: d.pagesRev, addPageCalls := d.addPageCalls + 1 }

/-- pdf.addImage(img, ...): draws the image onto the current page. -/
def addImage (d : PdfDoc) (img : String) : PdfDoc :=
  match d.pagesRev with
  | [] => { d with pagesRev := [[img]] }
  | p :: rest => { d with pagesRev := (p ++ [img]) :: rest }

/-- One iteration of the page loop in handleExportPDF: rasterize slide i
with html2canvas (which may throw, modelled as Except.error), insert a page
break when i > 0, and draw the image. A raised error aborts the loop: once
the accumulator is an error it is propagated unchanged. -/
def pdfStep (raster : Nat → Except Unit String)
    (acc : Except Unit PdfDoc) (i : Nat) : Except Unit PdfDoc :=
  match acc with
  | Except.error e => Except.error e
  | Except.ok doc =>
      match raster i with
      | Except.error e => Except.error e
      | Except.ok img =>
          Except.ok (addImage (if 0 < i then addPage doc else doc) img)

/-- The for-loop of handleExportPDF over slide indices 0 to n-1. -/
def pdfLoop (raster : Nat → Except Unit String) (n : Nat) :
    Except Unit PdfDoc :=
  (List.range n).foldl (pdfStep raster) (Except.ok newJsPDF)

/-- The observable outcome of one handleExportPDF invocation. -/
structure PdfExportResult where
  started : Bool
  savedDoc : Option PdfDoc
  errorReported : Bool
  isExportingAfter : Bool
deriving DecidableEq, Repr

/-- DeckViewer.tsx handleExportPDF: guarded on the export-in-progress flag;
inside the try block an absent export container returns early, otherwise the
page loop runs and the document is saved; any thrown error is caught and
reported with alert; the finally block clears the flag on every path that
entered the try block. containerPresent models exportContainerRef.current. -/
def handleExportPDF (isExporting : Bool) (containerPresent : Bool) (n : Nat)
    (raster : Nat → Except Unit String) : PdfExportResult :=
  if isExporting then
    { started := false, savedDoc := Option.none, errorReported := false
      isExportingAfter := isExporting }
  else if !containerPresent then
    { started := true, savedDoc := Option.none, errorReported := false
      isExportingAfter := false }
  else
    match pdfLoop raster n with
    | Except.error _ =>
        { started := true, savedDoc := Option.none, errorReported := true
          isExportingAfter := false }
    | Except.ok doc =>
        { started := true, savedDoc := Option.some doc, errorReported := false
          isExportingAfter := false }

/-- The background fill of a generated PPTX slide. -/
inductive PptxBackground
  | colorBg (hex : String)
  | dataBg (data : String)
deriving DecidableEq, Repr

/-- One slide object produced by handleExportPPTX, reduced to background,
logo, the text of each addText call in order (an addText call with a bullet
list contributes the list of its items), and the page-number caption.
Coordinates, fonts and sizes are display attributes and are not modelled. -/
structure PptxSlide where
  background : PptxBackground
  logoData : Option String
  texts : List (List String)
  pageNumber : Option String
deriving DecidableEq, Repr

/-- getHex in handleExportPPTX: strip a leading # from a color. -/
def getHex (color : String) : String :=
  (color.replace "#" "")

/-- handleExportPPTX master selection: unlike the live renderer, the
section branch takes system.masters.section with no fallback — an absent
section master leaves the JS variable undefined and the subsequent
master.background access throws, modelled as Option.none. -/
def pptxMasterStyle (slide : Slide) (index total : Nat) (masters : Masters) :
    Option MasterSlideStyle :=
  if slide.type == SlideType.title || isEndSlide index total then
    Option.some masters.title
  else if slide.type == SlideType.sectionType then masters.sectionMaster
  else Option.some masters.defaultMaster

/-- The page-number caption of handleExportPPTX: added on every slide that
is neither a title slide nor the end slide (the section condition is not
checked there, unlike the live renderer). -/
def pptxPageNumber (slide : Slide) (index total : Nat) : Option String :=
  if !(slide.type == SlideType.title) && !(isEndSlide index total) then
    Option.some (toString (index + 1) ++ " / " ++ toString total)
  else Option.none

/-- handleExportPPTX, body of slides.forEach for one slide: background,
logo, per-type text objects and page-number caption, over the master
selected by pptxMasterStyle. The branch order for the texts is isTitle,
then isSection, then isEnd, then bigNumber, then quote, then the standard
content branch. -/
def buildPptxSlide (system : DesignSystem) (slide : Slide)
    (index total : Nat) : Option PptxSlide :=
  let isTitle := slide.type == SlideType.title
  let isSection := slide.type == SlideType.sectionType
  let isEnd := isEndSlide index total
  match pptxMasterStyle slide index total system.masters with
  | Option.none => Option.none
  | Option.some master =>
    let slideBg := master.background
    let txtColor := if master.textColor ≠ "" then master.textColor
      else "#000000"
    let background :=
      if slideBg.startsWith "#" then PptxBackground.colorBg (getHex slideBg)
      else if truthyStr master.backgroundImage then
        (if (master.backgroundImage.getD "").startsWith "data:" then
          PptxBackground.dataBg (master.backgroundImage.getD "")
        else PptxBackground.colorBg "000000")
      else PptxBackground.colorBg "FFFFFF"
    let logoData :=
      if system.logo.placement != LogoPlacement.none then
        let useLightLogo := toUpperAscii txtColor == "#FFFFFF"
        let lightAsset := system.logo.images.bind (fun im => im.light)
        let darkAsset := system.logo.images.bind (fun im => im.dark)
        jsOrS (if useLightLogo then lightAsset else darkAsset)
          (if useLightLogo then darkAsset else lightAsset)
      else Option.none
    let texts : List (List String) :=
      if isTitle then
        [[slide.title]] ++
          (if truthyStr slide.subtitle then [[slide.subtitle.getD ""]] else [])
      else if isSection then
        [[slide.title]]
      else if isEnd then
        [["Vielen Dank!"]]
      else if slide.type == SlideType.bigNumber then
        [[slide.title], [(jsOrS slide.highlight (Option.some "100%")).getD ""]]
          ++ (if (slide.content.getD []).length > 0 then
                [["\n".intercalate (slide.content.getD [])]] else [])
      else if slide.type == SlideType.quote then
        [["“"], [(jsOrS slide.highlight (Option.some slide.title)).getD ""]]
          ++ (if truthyStr slide.subtitle then
                [["— " ++ slide.subtitle.getD ""]] else [])
      else
        [[slide.title]] ++
          (if (slide.content.getD []).length > 0 then [slide.content.getD []]
           else [])
    Option.some { background := background, logoData := logoData
                  texts := texts
                  pageNumber := pptxPageNumber slide index total }

/-- slides.forEach in handleExportPPTX: build the slide objects in deck
order, starting at index i; the first thrown error aborts the whole loop. -/
def buildPptxList (system : DesignSystem) (total : Nat) :
    Nat → List Slide → Option (List PptxSlide)
  | _, [] => Option.some []
  | i, s :: rest =>
      match buildPptxSlide system s i total with
      | Option.none => Option.none
      | Option.some ps =>
          match buildPptxList system total (i + 1) rest with
          | Option.none => Option.none
          | Option.some restOut => Option.some (ps :: restOut)

/-- The whole slide-building pass of handleExportPPTX over a deck. -/
def exportPPTXSlides (system : DesignSystem) (slides : List Slide) :
    Option (List PptxSlide) :=
  buildPptxList system slides.length 0 slides

/-- The observable outcome of one handleExportPPTX invocation. -/
structure PptxExportResult where
  started : Bool
  savedFile : Option (List PptxSlide)
  errorReported : Bool
  isExportingPPTXAfter : Bool
deriving DecidableEq, Repr

/-- handleExportPPTX (DeckViewer variant inside SlideRenderer.tsx): guarded
on isExporting = isExportingPDF || isExportingPPTX; the try block builds
every slide and writes the file, the catch block reports the error with
alert, and the finally block clears isExportingPPTX on every path that
entered the try block. -/
def handleExportPPTX (isExportingPDF isExportingPPTX : Bool)
    (system : DesignSystem) (slides : List Slide) : PptxExportResult :=
  if isExportingPDF || isExportingPPTX then
    { started := false, savedFile := Option.none, errorReported := false
      isExportingPPTXAfter := isExportingPPTX }
  else
    match exportPPTXSlides system slides with
    | Option.none =>
        { started := true, savedFile := Option.none, errorReported := true
          isExportingPPTXAfter := false }
    | Option.some out =>
        { started := true, savedFile := Option.some out
          errorReported := false, isExportingPPTXAfter := false }

/-- The DeckViewer component state: current slide index, fullscreen flag
and the two export-in-progress flags. -/
structure ViewerState where
  currentIndex : Nat
  isFullscreen : Bool
  isExportingPDF : Bool
  isExportingPPTX : Bool
deriving DecidableEq, Repr

/-- DeckViewer: isExporting = isExportingPDF || isExportingPPTX. -/
def ViewerState.isExporting (s : ViewerState) : Bool :=
  s.isExportingPDF || s.isExportingPPTX

/-- The keys the DeckViewer keydown handler distinguishes. -/
inductive Key
  | arrowRight
  | arrowLeft
  | space
  | escape
  | other
deriving DecidableEq, Repr

/-- DeckViewer handleKeyDown: ignores everything while an export is in
progress; ArrowRight and Space advance clamped at the last index, ArrowLeft
goes back clamped at 0 (Math.max(prev - 1, 0) is Nat subtraction here), and
Escape leaves fullscreen when active, otherwise requests closing the deck
view (the returned Bool). -/
def handleKeyDown (slidesLength : Nat) (k : Key) (s : ViewerState) :
    ViewerState × Bool :=
  if s.isExporting then (s, false)
  else
    match k with
    | Key.arrowRight =>
        ({ s with currentIndex := min (s.currentIndex + 1) (slidesLength - 1) },
         false)
    | Key.space =>
        ({ s with currentIndex := min (s.currentIndex + 1) (slidesLength - 1) },
         false)
    | Key.arrowLeft =>
        ({ s with currentIndex := s.currentIndex - 1 }, false)
    | Key.escape =>
        if s.isFullscreen then ({ s with isFullscreen := false }, false)
        else (s, true)
    | Key.other => (s, false)

/-- The guard at the top of handleExportPDF as a state transition: when an
export is already in flight the call is a no-op and no job is started,
otherwise the PDF flag is set and the export job starts (the Bool). -/
def startExportPDF (s : ViewerState) : ViewerState × Bool :=
  if s.isExporting then (s, false)
  else ({ s with isExportingPDF := true }, true)

/-- The guard at the top of handleExportPPTX as a state transition. -/
def startExportPPTX (s : ViewerState) : ViewerState × Bool :=
  if s.isExporting then (s, false)
  else ({ s with isExportingPPTX := true }, true)

/-! Concrete fixtures used by witnesses and counterexamples. -/

/-- A dark title master with no image or video background. -/
def darkMaster : MasterSlideStyle :=
  { background := "#1A1A2E", backgroundImage := Option.none
    backgroundVideo := Option.none, textColor := "#FFFFFF"
    accentColor := "#E4022B", ornament := Option.none }

/-- A light default master with no image or video background. -/
def lightMaster : MasterSlideStyle :=
  { background := "#FFFFFF", backgroundImage := Option.none
    backgroundVideo := Option.none, textColor := "#111111"
    accentColor := "#E4022B", ornament := Option.none }

/-- A sample master set with all three masters present. -/
def sampleMasters : Masters :=
  { title := darkMaster, sectionMaster := Option.some lightMaster
    defaultMaster := lightMaster }

/-- A logo with both assets present, placed top-left. -/
def sampleLogo : LogoSpecs :=
  { placement := LogoPlacement.topLeft, style := LogoStyle.color
    images := Option.some
      { light := Option.some "light.png", dark := Option.some "dark.png" }
    maxHeight := Option.none }

/-- A sample design system. -/
def sampleSystem : DesignSystem :=
  { name := "Acme Deck"
    colors := { background := "#FFFFFF", text := "#111111"
                primary := "#E4022B", secondary := "#666666"
                accent := "#E4022B" }
    fonts := { heading := "Inter", body := "Inter" }
    logo := sampleLogo
    masters := sampleMasters
    vibe := "clean"
    settings := Option.none }

/-- A fixed clock value standing in for new Date(). -/
def sampleDate : JsDate := { day := 11, month := 10, year := 2026 }

/-- A sample slide of a given type. -/
def sampleSlide (t : SlideType) : Slide :=
  { id := "s1", type := t, title := "Goals", subtitle := Option.none
    content := Option.some ["A", "B"], imageKeyword := Option.none
    highlight := Option.none }

/-! Claim theorems. -/

/-- Claim C1: for every deck with totalSlides > 1, whatever the declared
type of the slide at index totalSlides - 1, the renderer selects
masters.title for it and replaces the normal type layout with the end-slide
closing layout; and for a deck with totalSlides = 1 the single slide at
index 0 is never rendered with the end-slide layout. -/
theorem c1_end_slide_override (slide : Slide) (sys : DesignSystem)
    (total : Nat) (now : JsDate) (h : 1 < total) :
    (renderSlide slide sys (total - 1) total now).masterStyle =
      sys.masters.title ∧
    (renderSlide slide sys (total - 1) total now).layout =
      ContentLayout.endSlide "Vielen Dank!" "Ihr hurra.com™ Team" ∧
    ∀ (slide2 : Slide) (sys2 : DesignSystem) (now2 : JsDate)
      (hd tl : String),
      (renderSlide slide2 sys2 0 1 now2).layout ≠
        ContentLayout.endSlide hd tl := by
  have hEnd : isEndSlide (total - 1) total = true := by
    simp [isEndSlide]
    omega
  refine ⟨?_, ?_, ?_⟩
  · simp [renderSlide, masterStyleOf, hEnd]
  · simp [renderSlide, renderContent, hEnd]
  · intro slide2 sys2 now2 hd tl
    have hNo : isEndSlide 0 1 = false := by decide
    cases h2 : slide2.type <;>
      simp [renderSlide, renderContent, hNo, h2]

/-- Witness for c1_end_slide_override at a concrete two-slide deck whose
last slide has declared type content. -/
theorem c1_end_slide_override_witness :
    (renderSlide (sampleSlide SlideType.content) sampleSystem (2 - 1) 2
        sampleDate).masterStyle = sampleSystem.masters.title ∧
    (renderSlide (sampleSlide SlideType.content) sampleSystem (2 - 1) 2
        sampleDate).layout =
      ContentLayout.endSlide "Vielen Dank!" "Ihr hurra.com™ Team" ∧
    ∀ (slide2 : Slide) (sys2 : DesignSystem) (now2 : JsDate)
      (hd tl : String),
      (renderSlide slide2 sys2 0 1 now2).layout ≠
        ContentLayout.endSlide hd tl :=
  c1_end_slide_override (sampleSlide SlideType.content) sampleSystem 2
    sampleDate (by decide)

/-- The master exhibiting the C2 counterexample: no image or video
background and an empty textColor string. -/
def emptyTextColorMaster : MasterSlideStyle :=
  { background := "#FFFFFF", backgroundImage := Option.none
    backgroundVideo := Option.none, textColor := ""
    accentColor := "#E4022B", ornament := Option.none }

/-- Claim C2, counterexample: a master with neither image nor video
background whose textColor is the empty string resolves to the fallback
color, not to master.textColor, so the claimed equality fails. -/
theorem c2_contrast_counterexample :
    hasBackgroundImage emptyTextColorMaster = false ∧
    contentColor emptyTextColorMaster ≠ emptyTextColorMaster.textColor ∧
    contentColor emptyTextColorMaster = "#000000" := by
  refine ⟨rfl, ?_, rfl⟩
  decide

/-- Claim C2, amended: with an active image or video background the
resolved text color is white and the drop shadow is applied; without
either, the shadow is inactive and the resolved text color equals
master.textColor whenever that is non-empty, falling back to black for the
empty string. -/
theorem c2_contrast_resolution (m : MasterSlideStyle) :
    (hasBackgroundImage m = true →
      contentColor m = "#FFFFFF" ∧
      textShadow m = "0 2px 4px rgba(0,0,0,0.6)") ∧
    (hasBackgroundImage m = false →
      textShadow m = "none" ∧
      (m.textColor ≠ "" → contentColor m = m.textColor) ∧
      (m.textColor = "" → contentColor m = "#000000")) := by
  constructor
  · intro hbg
    exact ⟨by simp [contentColor, hbg], by simp [textShadow, hbg]⟩
  · intro hbg
    refine ⟨by simp [textShadow, hbg], ?_, ?_⟩
    · intro hne
      simp [contentColor, hbg, hne]
    · intro he
      simp [contentColor, hbg, he]

/-- Witness for c2_contrast_resolution at a master with an image
background. -/
theorem c2_contrast_resolution_witness :
    contentColor
        { background := "#FFFFFF", backgroundImage := Option.some "bg.png"
          backgroundVideo := Option.none, textColor := "#000000"
          accentColor := "#E4022B", ornament := Option.none } = "#FFFFFF" :=
  ((c2_contrast_resolution
      { background := "#FFFFFF", backgroundImage := Option.some "bg.png"
        backgroundVideo := Option.none, textColor := "#000000"
        accentColor := "#E4022B", ornament := Option.none }).1
    (by decide)).1

/-- The master set exhibiting the C3 bug: the section master is absent. -/
def noSectionMasters : Masters :=
  { title := darkMaster, sectionMaster := Option.none
    defaultMaster := lightMaster }

/-- The design system exhibiting the C3 bug. -/
def noSectionSystem : DesignSystem :=
  { sampleSystem with masters := noSectionMasters }

/-- A section slide sitting at a non-final index. -/
def sectionSlideFixture : Slide :=
  { id := "s2", type := SlideType.sectionType, title := "Agenda"
    subtitle := Option.none, content := Option.none
    imageKeyword := Option.none, highlight := Option.none }

/-- Claim C3: on a deck of 3 slides whose slide at index 1 has type
section and whose masters.section is absent, the live renderer falls back
to masters.title, but the PPTX exporter selects the absent section master
directly (no fallback), leaving the master undefined so that building the
slide object throws: the claimed read-time fallback is missing from the
native exporter. -/
theorem c3_section_fallback_bug :
    masterStyleOf sectionSlideFixture 1 3 noSectionMasters =
      noSectionMasters.title ∧
    pptxMasterStyle sectionSlideFixture 1 3 noSectionMasters = Option.none ∧
    buildPptxSlide noSectionSystem sectionSlideFixture 1 3 = Option.none ∧
    exportPPTXSlides noSectionSystem
      [sampleSlide SlideType.title, sectionSlideFixture,
       sampleSlide SlideType.content] = Option.none := by
  refine ⟨by decide, by decide, by decide, ?_⟩
  decide

/-- A logo where only the light asset is present. -/
def onlyLightLogo : LogoSpecs :=
  { placement := LogoPlacement.topLeft, style := LogoStyle.color
    images := Option.some
      { light := Option.some "light.png", dark := Option.none }
    maxHeight := Option.none }

/-- Claim C4, counterexample: with a non-white resolved text color (a
light background) and only the light asset available, the renderer falls
back to the light asset and applies no inversion filter — a light logo on
a light background is rendered as-is, so the never-invisible clause of the
claim fails in this fallback direction. -/
theorem c4_logo_counterexample :
    renderLogo onlyLightLogo "#000000" =
      Option.some { src := "light.png", filter := "none" } := by
  decide

/-- Claim C4, amended: no logo when placement is none; with white resolved
text color, a present light asset is chosen with no filter, and with only
the dark asset present it is chosen with the color-inversion filter; with
a non-white resolved text color and only the light asset present, the
light asset is chosen with no filter at all — the computed inversion is
applied only in the dark-asset-on-dark-background fallback, not in the
light-asset-on-light-background one. -/
theorem c4_logo_resolution (lg : LogoSpecs) (c : String) :
    (lg.placement = LogoPlacement.none → renderLogo lg c = Option.none) ∧
    (lg.placement ≠ LogoPlacement.none →
      (toUpperAscii c = "#FFFFFF" →
        (truthyStr (lg.images.bind (fun im => im.light)) = true →
          renderLogo lg c = Option.some
            { src := (lg.images.bind (fun im => im.light)).getD ""
              filter := "none" }) ∧
        (truthyStr (lg.images.bind (fun im => im.light)) = false →
         truthyStr (lg.images.bind (fun im => im.dark)) = true →
          renderLogo lg c = Option.some
            { src := (lg.images.bind (fun im => im.dark)).getD ""
              filter := "brightness(0) invert(1)" })) ∧
      (toUpperAscii c ≠ "#FFFFFF" →
        (truthyStr (lg.images.bind (fun im => im.dark)) = false →
         truthyStr (lg.images.bind (fun im => im.light)) = true →
          renderLogo lg c = Option.some
            { src := (lg.images.bind (fun im => im.light)).getD ""
              filter := "none" }))) := by
  refine ⟨?_, ?_⟩
  · intro hp
    simp [renderLogo, hp]
  · intro hp
    have hpb : (lg.placement == LogoPlacement.none) = false := by
      simp [hp]
    refine ⟨?_, ?_⟩
    · intro hw
      have hwb : (toUpperAscii c == "#FFFFFF") = true := by simp [hw]
      refine ⟨?_, ?_⟩
      · intro hl
        simp [renderLogo, hpb, hwb, jsOrS, hl]
      · intro hl hd
        simp [renderLogo, hpb, hwb, jsOrS, hl, hd]
    · intro hw
      have hwb : (toUpperAscii c == "#FFFFFF") = false := by
        simp [beq_eq_false_iff_ne, hw]
      intro hd hl
      simp [renderLogo, hpb, hwb, jsOrS, hd, hl]

/-- Witness for c4_logo_resolution: white resolved text color with both
assets present chooses the light asset without a filter. -/
theorem c4_logo_resolution_witness :
    renderLogo sampleLogo "#FFFFFF" =
      Option.some { src := "light.png", filter := "none" } :=
  (((c4_logo_resolution sampleLogo "#FFFFFF").2 (by decide)).1
      (by decide)).1 (by decide)

/-- Claim C5, counterexample: on a 3-slide deck, for a section slide at
index 1 the live renderer shows no page number, but the PPTX exporter
(whose guard checks only the title and end conditions) emits the caption
2 / 3 — the claimed iff fails for the native exporter on section slides. -/
theorem c5_page_number_counterexample :
    sectionSlideFixture.type = SlideType.sectionType ∧
    isEndSlide 1 3 = false ∧
    (renderSlide sectionSlideFixture sampleSystem 1 3 sampleDate).pageNumber
      = Option.none ∧
    (buildPptxSlide sampleSystem sectionSlideFixture 1 3).map
      (fun ps => ps.pageNumber) =
      Option.some (Option.some "2 / 3") := by
  refine ⟨rfl, by decide, by decide, ?_⟩
  decide

/-- A successfully built PPTX slide carries the caption computed by
pptxPageNumber. -/
theorem buildPptxSlide_pageNumber (sys : DesignSystem) (slide : Slide)
    (index total : Nat) (ps : PptxSlide)
    (hps : buildPptxSlide sys slide index total = Option.some ps) :
    ps.pageNumber = pptxPageNumber slide index total := by
  unfold buildPptxSlide at hps
  cases hm : pptxMasterStyle slide index total sys.masters with
  | none => rw [hm] at hps; cases hps
  | some master =>
      rw [hm] at hps
      injection hps with h
      rw [← h]

/-- Claim C5, amended: in the live renderer the caption, formatted as
position + 1, a slash, and the total, appears iff the slide is not a
title, not a section and not the end slide; in the PPTX exporter the
caption (same format) appears iff the slide is not a title and not the
end slide — section slides do get a caption there. -/
theorem c5_page_number (slide : Slide) (sys : DesignSystem)
    (index total : Nat) (now : JsDate) :
    ((renderSlide slide sys index total now).pageNumber.isSome = true ↔
      (slide.type ≠ SlideType.title ∧ slide.type ≠ SlideType.sectionType ∧
        isEndSlide index total = false)) ∧
    (∀ txt, (renderSlide slide sys index total now).pageNumber =
        Option.some txt →
      txt = toString (index + 1) ++ " / " ++ toString total) ∧
    (∀ ps, buildPptxSlide sys slide index total = Option.some ps →
      (ps.pageNumber.isSome = true ↔
        (slide.type ≠ SlideType.title ∧ isEndSlide index total = false)) ∧
      (∀ txt, ps.pageNumber = Option.some txt →
        txt = toString (index + 1) ++ " / " ++ toString total)) := by
  refine ⟨?_, ?_, ?_⟩
  · by_cases h1 : slide.type = SlideType.title <;>
      by_cases h2 : slide.type = SlideType.sectionType <;>
      by_cases h3 : isEndSlide index total = true <;>
      simp [renderSlide, h1, h2, h3]
  · intro txt htxt
    simp only [renderSlide] at htxt
    split at htxt
    · exact (Option.some.inj htxt).symm
    · cases htxt
  · intro ps hps
    rw [buildPptxSlide_pageNumber sys slide index total ps hps]
    constructor
    · by_cases h1 : slide.type = SlideType.title <;>
        by_cases h3 : isEndSlide index total = true <;>
        simp [pptxPageNumber, h1, h3]
    · intro txt htxt
      unfold pptxPageNumber at htxt
      split at htxt
      · exact (Option.some.inj htxt).symm
      · cases htxt

/-- Witness for c5_page_number: a content slide at index 0 of a 3-slide
deck shows a caption in the live renderer. -/
theorem c5_page_number_witness :
    (renderSlide (sampleSlide SlideType.content) sampleSystem 0 3
      sampleDate).pageNumber.isSome = true :=
  ((c5_page_number (sampleSlide SlideType.content) sampleSystem 0 3
    sampleDate).1).mpr (by decide)

/-- The image captured for slide i, read off a successful rasterization. -/
def imgOf (raster : Nat → Except Unit String) (i : Nat) : String :=
  match raster i with
  | Except.ok s => s
  | Except.error _ => ""

/-- Folding the page loop from an already-raised error keeps the error. -/
theorem pdfFold_error (raster : Nat → Except Unit String) (e : Unit) :
    ∀ l : List Nat,
      l.foldl (pdfStep raster) (Except.error e) = Except.error e := by
  intro l
  induction l with
  | nil => rfl
  | cons a t ih =>
      rw [List.foldl_cons]
      exact ih

/-- If any slide in range fails to rasterize, the whole page loop raises. -/
theorem pdfLoop_error (raster : Nat → Except Unit String) (n i : Nat)
    (hi : i < n) (he : raster i = Except.error ()) :
    pdfLoop raster n = Except.error () := by
  induction n with
  | zero => omega
  | succ m ih =>
      rw [pdfLoop, List.range_succ, List.foldl_append]
      by_cases h : i < m
      · rw [show (List.range m).foldl (pdfStep raster) (Except.ok newJsPDF)
              = pdfLoop raster m from rfl, ih h]
        exact pdfFold_error raster () [m]
      · have him : i = m := by omega
        subst him
        cases hacc :
            (List.range i).foldl (pdfStep raster) (Except.ok newJsPDF) with
        | error e => simp [List.foldl_cons, pdfStep]
        | ok doc => simp [List.foldl_cons, pdfStep, he]

/-- If every slide in range rasterizes, the page loop produces one page
per slide, in order, with a page break before every page but the first. -/
theorem pdfLoop_ok (raster : Nat → Except Unit String) (n : Nat)
    (hn : 1 ≤ n)
    (hok : ∀ i, i < n → raster i = Except.ok (imgOf raster i)) :
    pdfLoop raster n = Except.ok
      { pagesRev := ((List.range n).map (fun i => [imgOf raster i])).reverse
        addPageCalls := n - 1 } := by
  induction n with
  | zero => omega
  | succ m ih =>
      by_cases hm : 1 ≤ m
      · have hok2 : ∀ i, i < m → raster i = Except.ok (imgOf raster i) :=
          fun i hi => hok i (by omega)
        rw [pdfLoop, List.range_succ, List.foldl_append,
          show (List.range m).foldl (pdfStep raster) (Except.ok newJsPDF)
            = pdfLoop raster m from rfl, ih hm hok2]
        have hmm : raster m = Except.ok (imgOf raster m) := hok m (by omega)
        have hm0 : 0 < m := hm
        simp [List.foldl_cons, pdfStep, hmm, hm0, addPage, addImage,
          List.map_append, List.reverse_append]
        omega
      · have hme : m = 0 := by omega
        subst hme
        have h0 : raster 0 = Except.ok (imgOf raster 0) := hok 0 (by omega)
        simp [pdfLoop, List.range_succ, List.foldl_cons, pdfStep, h0,
          newJsPDF, addImage]

/-- The length of a successfully built PPTX slide list matches the deck. -/
theorem buildPptxList_length (sys : DesignSystem) (total : Nat) :
    ∀ (l : List Slide) (i : Nat) (out : List PptxSlide),
      buildPptxList sys total i l = Option.some out →
      out.length = l.length := by
  intro l
  induction l with
  | nil =>
      intro i out h
      injection h with h2
      rw [← h2]
      rfl
  | cons s t ih =>
      intro i out h
      unfold buildPptxList at h
      cases hb : buildPptxSlide sys s i total with
      | none => rw [hb] at h; cases h
      | some ps =>
          rw [hb] at h
          cases hr : buildPptxList sys total (i + 1) t with
          | none => rw [hr] at h; cases h
          | some rest =>
              rw [hr] at h
              injection h with h2
              rw [← h2]
              simp [ih (i + 1) rest hr]

/-- A successfully built PPTX slide list holds, at each position j, the
slide object built from the deck slide at position j. -/
theorem buildPptxList_get (sys : DesignSystem) (total : Nat) :
    ∀ (l : List Slide) (i j : Nat) (out : List PptxSlide),
      buildPptxList sys total i l = Option.some out →
      out.get? j = (l.get? j).bind
        (fun s => buildPptxSlide sys s (i + j) total) := by
  intro l
  induction l with
  | nil =>
      intro i j out h
      injection h with h2
      rw [← h2]
      simp
  | cons s t ih =>
      intro i j out h
      unfold buildPptxList at h
      cases hb : buildPptxSlide sys s i total with
      | none => rw [hb] at h; cases h
      | some ps =>
          rw [hb] at h
          cases hr : buildPptxList sys total (i + 1) t with
          | none => rw [hr] at h; cases h
          | some rest =>
              rw [hr] at h
              injection h with h2
              rw [← h2]
              cases j with
              | zero => simp [hb]
              | succ k =>
                  have hik : i + (k + 1) = (i + 1) + k := by omega
                  have h3 := ih (i + 1) k rest hr
                  simpa [hik] using h3

/-- Claim C6: with no export already in flight, the export container
mounted and every slide rasterizing successfully, the PDF export of an
N-slide deck (N at least 1) saves a document of exactly N pages, page i
carrying exactly the image of slide i, with N - 1 page breaks (none before
page 1, one before each subsequent page); and whenever the PPTX export
pass succeeds it yields exactly N slide objects, the one at position j
being built from the deck slide at position j. -/
theorem c6_export_cardinality (sys : DesignSystem) (slides : List Slide)
    (raster : Nat → Except Unit String)
    (hn : 1 ≤ slides.length)
    (hok : ∀ i, i < slides.length →
      raster i = Except.ok (imgOf raster i)) :
    (∃ doc,
      (handleExportPDF false true slides.length raster).savedDoc =
        Option.some doc ∧
      doc.pages.length = slides.length ∧
      doc.pages = (List.range slides.length).map
        (fun i => [imgOf raster i]) ∧
      doc.addPageCalls = slides.length - 1) ∧
    (∀ out, exportPPTXSlides sys slides = Option.some out →
      out.length = slides.length ∧
      ∀ j, out.get? j = (slides.get? j).bind
        (fun s => buildPptxSlide sys s j slides.length)) := by
  constructor
  · have hl := pdfLoop_ok raster slides.length hn hok
    refine ⟨PdfDoc.mk (((List.range slides.length).map
        (fun i => [imgOf raster i])).reverse) (slides.length - 1),
      ?_, ?_, ?_, ?_⟩
    · simp [handleExportPDF, hl]
    · simp [PdfDoc.pages]
    · simp [PdfDoc.pages]
    · rfl
  · intro out hout
    refine ⟨buildPptxList_length sys slides.length slides 0 out hout, ?_⟩
    intro j
    have h := buildPptxList_get sys slides.length slides 0 j out hout
    simpa using h

/-- A rasterization oracle that succeeds on every slide. -/
def sampleRaster : Nat → Except Unit String :=
  fun i => Except.ok ("img" ++ toString i)

/-- Witness for c6_export_cardinality on a concrete two-slide deck. -/
theorem c6_export_cardinality_witness :
    (∃ doc,
      (handleExportPDF false true
          ([sampleSlide SlideType.title,
            sampleSlide SlideType.content] : List Slide).length
          sampleRaster).savedDoc = Option.some doc ∧
      doc.pages.length =
        ([sampleSlide SlideType.title,
          sampleSlide SlideType.content] : List Slide).length ∧
      doc.pages = (List.range
          ([sampleSlide SlideType.title,
            sampleSlide SlideType.content] : List Slide).length).map
        (fun i => [imgOf sampleRaster i]) ∧
      doc.addPageCalls =
        ([sampleSlide SlideType.title,
          sampleSlide SlideType.content] : List Slide).length - 1) ∧
    (∀ out, exportPPTXSlides sampleSystem
        [sampleSlide SlideType.title, sampleSlide SlideType.content] =
          Option.some out →
      out.length =
        ([sampleSlide SlideType.title,
          sampleSlide SlideType.content] : List Slide).length ∧
      ∀ j, out.get? j =
        (([sampleSlide SlideType.title,
           sampleSlide SlideType.content] : List Slide).get? j).bind
          (fun s => buildPptxSlide sampleSystem s j
            ([sampleSlide SlideType.title,
              sampleSlide SlideType.content] : List Slide).length)) :=
  c6_export_cardinality sampleSystem
    [sampleSlide SlideType.title, sampleSlide SlideType.content]
    sampleRaster (by decide) (fun i hi => rfl)

/-- Claim C7: when a PDF export that actually starts hits a slide whose
rasterization throws, no document at all is saved, the failure is
reported to the user, and the export-in-progress flag is back to false;
moreover the flag is released on every exit path of a started export,
including the early-return and exception paths. -/
theorem c7_pdf_failure_atomicity (n : Nat)
    (raster : Nat → Except Unit String) (i : Nat)
    (hi : i < n) (hf : raster i = Except.error ()) :
    (handleExportPDF false true n raster).savedDoc = Option.none ∧
    (handleExportPDF false true n raster).errorReported = true ∧
    (handleExportPDF false true n raster).isExportingAfter = false ∧
    (∀ (c : Bool) (m : Nat) (r : Nat → Except Unit String),
      (handleExportPDF false c m r).isExportingAfter = false) := by
  have hl := pdfLoop_error raster n i hi hf
  refine ⟨by simp [handleExportPDF, hl], by simp [handleExportPDF, hl],
    by simp [handleExportPDF, hl], ?_⟩
  intro c m r
  cases c with
  | false => rfl
  | true =>
      unfold handleExportPDF
      cases hpl : pdfLoop r m with
      | error e => simp [hpl]
      | ok doc => simp [hpl]

/-- Witness for c7_pdf_failure_atomicity: a 2-slide deck whose second
slide fails to rasterize saves nothing, reports, and releases the flag. -/
theorem c7_pdf_failure_atomicity_witness :
    (handleExportPDF false true 2
        (fun i => if i == 1 then Except.error () else Except.ok "img")
      ).savedDoc = Option.none ∧
    (handleExportPDF false true 2
        (fun i => if i == 1 then Except.error () else Except.ok "img")
      ).errorReported = true ∧
    (handleExportPDF false true 2
        (fun i => if i == 1 then Except.error () else Except.ok "img")
      ).isExportingAfter = false ∧
    (∀ (c : Bool) (m : Nat) (r : Nat → Except Unit String),
      (handleExportPDF false c m r).isExportingAfter = false) :=
  c7_pdf_failure_atomicity 2
    (fun i => if i == 1 then Except.error () else Except.ok "img")
    1 (by decide) rfl

/-- Claim C8: while an export is in flight, the viewer is modally
blocked: every keyboard event leaves the state unchanged and requests no
close, the PDF and PPTX start guards are no-ops that start no job, and an
export handler invoked in that state neither starts nor produces any
document. -/
theorem c8_export_modal_blocking (s : ViewerState)
    (hs : s.isExporting = true) :
    (∀ (n : Nat) (k : Key), handleKeyDown n k s = (s, false)) ∧
    startExportPDF s = (s, false) ∧
    startExportPPTX s = (s, false) ∧
    (∀ (c : Bool) (n : Nat) (r : Nat → Except Unit String),
      (handleExportPDF s.isExporting c n r).started = false ∧
      (handleExportPDF s.isExporting c n r).savedDoc = Option.none) ∧
    (∀ (sys : DesignSystem) (slides : List Slide),
      (handleExportPPTX s.isExportingPDF s.isExportingPPTX sys slides
        ).started = false ∧
      (handleExportPPTX s.isExportingPDF s.isExportingPPTX sys slides
        ).savedFile = Option.none) := by
  have hs2 : (s.isExportingPDF || s.isExportingPPTX) = true := hs
  refine ⟨?_, ?_, ?_, ?_, ?_⟩
  · intro n k
    simp [handleKeyDown, hs]
  · simp [startExportPDF, hs]
  · simp [startExportPPTX, hs]
  · intro c n r
    rw [hs]
    exact ⟨rfl, rfl⟩
  · intro sys slides
    unfold handleExportPPTX
    rw [hs2]
    exact ⟨rfl, rfl⟩

/-- Witness for c8_export_modal_blocking: with a PPTX export in flight,
ArrowRight does not move the current slide and a PDF start is a no-op. -/
theorem c8_export_modal_blocking_witness :
    handleKeyDown 5 Key.arrowRight
        { currentIndex := 0, isFullscreen := false
          isExportingPDF := false, isExportingPPTX := true } =
      ({ currentIndex := 0, isFullscreen := false
         isExportingPDF := false, isExportingPPTX := true }, false) ∧
    startExportPDF
        { currentIndex := 0, isFullscreen := false
          isExportingPDF := false, isExportingPPTX := true } =
      ({ currentIndex := 0, isFullscreen := false
         isExportingPDF := false, isExportingPPTX := true }, false) :=
  ⟨(c8_export_modal_blocking
      { currentIndex := 0, isFullscreen := false
        isExportingPDF := false, isExportingPPTX := true }
      (by decide)).1 5 Key.arrowRight,
   (c8_export_modal_blocking
      { currentIndex := 0, isFullscreen := false
        isExportingPDF := false, isExportingPPTX := true }
      (by decide)).2.1⟩

/-- Settings asking for the documented default end-slide title. -/
def thankYouSettings : PresentationSettings :=
  { showPageNumbers := Option.none, dateFormat := Option.none
    endSlide := Option.some
      { title := Option.some "Thank You!"
        subtitle := Option.some "The Team" }
    language := Option.none }

/-- A design system carrying thankYouSettings. -/
def thankYouSystem : DesignSystem :=
  { sampleSystem with settings := Option.some thankYouSettings }

/-- Claim C9: the end-slide closing block is not configurable. On a
2-slide deck whose design system sets settings.endSlide.title to the
documented default Thank You!, the renderer still shows the hard-coded
German text Vielen Dank! with the hard-coded team line, the PPTX exporter
writes the same hard-coded text, and the renderer output is entirely
independent of the settings field, so settings.endSlide is never read. -/
theorem c9_end_slide_text_bug :
    (renderSlide (sampleSlide SlideType.content) thankYouSystem 1 2
        sampleDate).layout =
      ContentLayout.endSlide "Vielen Dank!" "Ihr hurra.com™ Team" ∧
    ("Vielen Dank!" : String) ≠ "Thank You!" ∧
    (buildPptxSlide thankYouSystem (sampleSlide SlideType.content) 1 2).map
        (fun ps => ps.texts) =
      Option.some [["Vielen Dank!"]] ∧
    (∀ (st : Option PresentationSettings) (slide : Slide)
        (index total : Nat) (now : JsDate),
      renderSlide slide { thankYouSystem with settings := st } index total
          now =
        renderSlide slide thankYouSystem index total now) := by
  refine ⟨by decide, by decide, by decide, ?_⟩
  intro st slide index total now
  rfl

/-- A settings record with every optional field absent. -/
def emptySettings : PresentationSettings :=
  { showPageNumbers := Option.none, dateFormat := Option.none
    endSlide := Option.none, language := Option.none }

/-- Overwrite only the dateFormat field of a design system's settings,
creating an otherwise-empty settings record when none is present: two
systems setDateFormat sys df1 and setDateFormat sys df2 differ only in
settings.dateFormat. -/
def setDateFormat (sys : DesignSystem) (df : Option DateFormat) :
    DesignSystem :=
  let st := sys.settings.getD emptySettings
  { sys with settings := Option.some { st with dateFormat := df } }

/-- Claim C10: the date caption is locale-fixed. Changing only
settings.dateFormat between two otherwise identical design systems leaves
the entire rendered slide identical, and the caption on a title slide is
the en-GB long-format date, independent of any setting. -/
theorem c10_date_locale_noninterference (sys : DesignSystem)
    (df1 df2 : Option DateFormat) (slide : Slide) (index total : Nat)
    (now : JsDate) :
    renderSlide slide (setDateFormat sys df1) index total now =
      renderSlide slide (setDateFormat sys df2) index total now ∧
    (slide.type = SlideType.title → isEndSlide index total = false →
      (renderSlide slide sys index total now).layout =
        ContentLayout.titleLayout slide.title
          (if truthyStr slide.subtitle then slide.subtitle else Option.none)
          (formatDateEnGBLong now)) := by
  constructor
  · cases sys
    rfl
  · intro ht he
    simp [renderSlide, renderContent, ht, he]

/-- Witness for c10_date_locale_noninterference on a concrete title
slide at index 0 of a 3-slide deck. -/
theorem c10_date_locale_noninterference_witness :
    (renderSlide (sampleSlide SlideType.title) sampleSystem 0 3
        sampleDate).layout =
      ContentLayout.titleLayout (sampleSlide SlideType.title).title
        (if truthyStr (sampleSlide SlideType.title).subtitle then
          (sampleSlide SlideType.title).subtitle
         else Option.none)
        (formatDateEnGBLong sampleDate) :=
  (c10_date_locale_noninterference sampleSystem Option.none Option.none
    (sampleSlide SlideType.title) 0 3 sampleDate).2 rfl (by decide)

end SlideMaster
